import Mathlib

set_option linter.unusedVariables false

/-!
Verification of the coordinate-extraction / paginated-fetch / classification
pipeline of `src/app.py` (Streamlit restaurant classifier).

The Python source is shallowly embedded as executable Lean definitions:

* strings are Lean `String`s (lists of Unicode scalar values, as in Python);
* Python's `float(...)` applied to a matched decimal literal is modelled
  exactly as a scaled integer `(num, exp) : Int × Nat` denoting `num / 10^exp`
  (no binary rounding; none of the verified properties depends on binary
  float rounding);
* wall-clock times are opaque rational inputs threaded through the functions;
* network calls (`requests.get`, the Places API, the OpenAI API) are modelled
  by explicit parameters giving the outcome of each call, with `Except`
  capturing raised exceptions, and the embedding additionally returns the
  number of upstream calls made (and, for the fetcher, the ordered list of
  delay/call events) so that call-count properties are statable.
-/

/-! ## String helpers (Python `str.strip`, `str.lower`, `in`) -/

/-- Python `str.strip()` on the character list: drop whitespace from both ends. -/
def stripChars (cs : List Char) : List Char :=
  (((cs.dropWhile Char.isWhitespace).reverse).dropWhile Char.isWhitespace).reverse

/-- Python `str.strip()`. -/
def strip (s : String) : String :=
  ⟨stripChars s.data⟩

/-- Python `str.lower()`. `Char.toLower` lowers ASCII letters and leaves other
characters (in particular the Arabic category names) unchanged, which agrees
with Python on every string this program manipulates. -/
def lowerStr (s : String) : String :=
  ⟨s.data.map Char.toLower⟩

/-- Contiguous-substring test on character lists (Python `pat in hay`). -/
def containsSub (hay pat : List Char) : Bool :=
  match hay with
  | [] => pat.isEmpty
  | _ :: t => pat.isPrefixOf hay || containsSub t pat

/-- Python `pat in hay` on strings. -/
def containsB (hay pat : String) : Bool :=
  containsSub hay.data pat.data

/-! ## Category classifier (`classify_with_chatgpt`, src/app.py lines 105-166) -/

/-- The fixed Arabic cuisine taxonomy `CATEGORIES_AR` (src/app.py lines 105-113).
The last entry is the catch-all "Other" category. -/
def CATEGORIES_AR : List String :=
  ["مطاعم هندية", "مطاعم شاورما", "مطاعم لبنانية", "مطاعم خليجية",
   "مطاعم أسماك", "مطاعم برجر", "أخرى"]

/-- The synonym substrings tested by the normalization chain
(src/app.py lines 151-162), in source order. -/
def SYNONYMS : List String :=
  ["indian", "هندي", "shawarma", "شاورما", "lebanese", "لبناني",
   "gulf", "khaleeji", "خليج", "fish", "seafood", "سمك", "burger", "برجر"]

/-- The synonym substrings tested before the fish/seafood group
(src/app.py lines 151-158). -/
def SYNONYMS_BEFORE_SEAFOOD : List String :=
  ["indian", "هندي", "shawarma", "شاورما", "lebanese", "لبناني",
   "gulf", "khaleeji", "خليج"]

/-- Python `round(x, 2)` on the measured latency, modelled on rationals. -/
def round2 (q : ℚ) : ℚ :=
  (Int.floor (q * 100 + 1 / 2) : ℚ) / 100

/-- Embedding of `classify_with_chatgpt` (src/app.py lines 115-166).

`openai_key` is the configured credential (`OPENAI_KEY`; Python's `if not
OPENAI_KEY` is the test `openai_key = ""`).  `call` is the outcome of the one
`openai.ChatCompletion.create` invocation: `Except.error e` models a raised
exception with message `e`, and `Except.ok (choice, elapsed)` models a
completed call, where `choice` is the first choice's message content (`none`
when the response carries no choices, in which case the source leaves
`text = ""`) and `elapsed` the wall-clock time measured around the call.
`name`, `address`, `types` and `timeout_s` only shape the prompt and the
transport options in the source, so they do not influence the result here.

The result is the source's returned pair `(category_string, latency)`
together with the number of upstream model calls performed. -/
def classify_with_chatgpt (openai_key : String) (call : Except String (Option String × ℚ))
    (name : String) (address : String) (types : String) (timeout_s : ℚ) :
    (String × Option ℚ) × Nat :=
  if openai_key = "" then (("❌ OpenAI API key missing", none), 0)
  else
    match call with
    | Except.error e => (("❌ Error: " ++ e, none), 1)
    | Except.ok (choice, elapsed) =>
      let text := strip (choice.getD "")
      if text ∈ CATEGORIES_AR then ((text, some (round2 elapsed)), 1)
      else
        let low := lowerStr text
        if containsB low "indian" || containsB low "هندي" then
          (("مطاعم هندية", some (round2 elapsed)), 1)
        else if containsB low "shawarma" || containsB low "شاورما" then
          (("مطاعم شاورما", some (round2 elapsed)), 1)
        else if containsB low "lebanese" || containsB low "لبناني" then
          (("مطاعم لبنانية", some (round2 elapsed)), 1)
        else if containsB low "gulf" || containsB low "khaleeji" || containsB low "خليج" then
          (("مطاعم خليجية", some (round2 elapsed)), 1)
        else if containsB low "fish" || containsB low "seafood" || containsB low "سمك" then
          (("مطاعم أسماك", some (round2 elapsed)), 1)
        else if containsB low "burger" || containsB low "برجر" then
          (("مطاعم برجر", some (round2 elapsed)), 1)
        else
          (("أخرى", some (round2 elapsed)), 1)

/-! ## Coordinate resolver (`extract_coordinates`, src/app.py lines 54-77)

The three regular expressions of the source are embedded as deterministic
matchers over character lists.  For each of these patterns the Python
backtracking engine is deterministic — every greedy piece (`\d+`, `\d{1,3}`,
`[, ]+`) is followed by a character disjoint from its own character class —
so a longest-munch matcher computes exactly the Python match, and scanning
start positions left to right computes exactly `re.search`. -/

/-- Matcher for `\d+\.\d+` at the start of the input.  Returns the matched
characters and the rest of the input. -/
def matchUFloat (cs : List Char) : Option (List Char × List Char) :=
  let d1 := cs.takeWhile Char.isDigit
  let r1 := cs.dropWhile Char.isDigit
  if d1.isEmpty then none
  else
    match r1 with
    | '.' :: r2 =>
      let d2 := r2.takeWhile Char.isDigit
      let r3 := r2.dropWhile Char.isDigit
      if d2.isEmpty then none
      else some (d1 ++ '.' :: d2, r3)
    | _ => none

/-- Matcher for `[-+]?\d+\.\d+` at the start of the input. -/
def matchSFloat (cs : List Char) : Option (List Char × List Char) :=
  match cs with
  | '-' :: r => (matchUFloat r).map (fun m => ('-' :: m.1, m.2))
  | '+' :: r => (matchUFloat r).map (fun m => ('+' :: m.1, m.2))
  | _ => matchUFloat cs

/-- Matcher for `\d{1,3}\.\d+` at the start of the input. -/
def matchU13 (cs : List Char) : Option (List Char × List Char) :=
  let d1 := cs.takeWhile Char.isDigit
  let r1 := cs.dropWhile Char.isDigit
  if d1.isEmpty || 3 < d1.length then none
  else
    match r1 with
    | '.' :: r2 =>
      let d2 := r2.takeWhile Char.isDigit
      let r3 := r2.dropWhile Char.isDigit
      if d2.isEmpty then none
      else some (d1 ++ '.' :: d2, r3)
    | _ => none

/-- Matcher for `[-+]?\d{1,3}\.\d+` at the start of the input. -/
def matchS13 (cs : List Char) : Option (List Char × List Char) :=
  match cs with
  | '-' :: r => (matchU13 r).map (fun m => ('-' :: m.1, m.2))
  | '+' :: r => (matchU13 r).map (fun m => ('+' :: m.1, m.2))
  | _ => matchU13 cs

/-- Pattern `@([-+]?\d+\.\d+),([-+]?\d+\.\d+)` anchored at the start of the
input (src/app.py line 64); returns the two groups. -/
def pat1At (cs : List Char) : Option (List Char × List Char) :=
  match cs with
  | '@' :: r1 =>
    match matchSFloat r1 with
    | some m1 =>
      match m1.2 with
      | ',' :: r3 =>
        match matchSFloat r3 with
        | some m2 => some (m1.1, m2.1)
        | none => none
      | _ => none
    | none => none
  | _ => none

/-- Pattern `!3d([-+]?\d+\.\d+)!4d([-+]?\d+\.\d+)` anchored at the start of
the input (src/app.py line 68); returns the two groups. -/
def pat2At (cs : List Char) : Option (List Char × List Char) :=
  match cs with
  | '!' :: '3' :: 'd' :: r1 =>
    match matchSFloat r1 with
    | some m1 =>
      match m1.2 with
      | '!' :: '4' :: 'd' :: r3 =>
        match matchSFloat r3 with
        | some m2 => some (m1.1, m2.1)
        | none => none
      | _ => none
    | none => none
  | _ => none

/-- Pattern `([-+]?\d{1,3}\.\d+)[, ]+([-+]?\d{1,3}\.\d+)` anchored at the
start of the input (src/app.py line 72); returns the two groups. -/
def pat3At (cs : List Char) : Option (List Char × List Char) :=
  match matchS13 cs with
  | some m1 =>
    let sep := m1.2.takeWhile (fun c => c == ',' || c == ' ')
    let r2 := m1.2.dropWhile (fun c => c == ',' || c == ' ')
    if sep.isEmpty then none
    else
      match matchS13 r2 with
      | some m2 => some (m1.1, m2.1)
      | none => none
  | none => none

/-- Embedding of `re.search`: try the anchored matcher at each start
position, left to right. -/
def search {α : Type} (p : List Char → Option α) : List Char → Option α
  | [] => p []
  | c :: rest =>
    match p (c :: rest) with
    | some x => some x
    | none => search p rest

/-- Search for the `@lat,lng` pattern. -/
def searchPat1 (cs : List Char) : Option (List Char × List Char) :=
  search pat1At cs

/-- Search for the `!3dLAT!4dLNG` pattern. -/
def searchPat2 (cs : List Char) : Option (List Char × List Char) :=
  search pat2At cs

/-- Search for the generic decimal-pair pattern. -/
def searchPat3 (cs : List Char) : Option (List Char × List Char) :=
  search pat3At cs

/-- Numeric value of a digit string. -/
def digitsVal (ds : List Char) : Nat :=
  ds.foldl (fun a c => 10 * a + (c.toNat - 48)) 0

/-- Exact value of an unsigned decimal literal `digits.digits`, as a scaled
integer `(num, exp)` denoting `num / 10^exp`. -/
def parseDecU (cs : List Char) : Int × Nat :=
  let ip := cs.takeWhile Char.isDigit
  let r1 := cs.dropWhile Char.isDigit
  let fp := match r1 with
    | '.' :: t => t.takeWhile Char.isDigit
    | _ => []
  ((digitsVal (ip ++ fp) : Int), fp.length)

/-- Exact value of a matched group `[-+]?digits.digits`; models Python's
`float(...)` applied to the group, without binary rounding. -/
def parseDec : List Char → Int × Nat
  | '-' :: r => (-(parseDecU r).1, (parseDecU r).2)
  | '+' :: r => parseDecU r
  | cs => parseDecU cs

/-- The range test `-90 <= lat <= 90 and -180 <= lng <= 180`
(src/app.py line 75) on scaled integers. -/
def inRangeB (lat lng : Int × Nat) : Bool :=
  decide (-(90 : Int) * 10 ^ lat.2 ≤ lat.1) && decide (lat.1 ≤ 90 * 10 ^ lat.2) &&
    decide (-(180 : Int) * 10 ^ lng.2 ≤ lng.1) && decide (lng.1 ≤ 180 * 10 ^ lng.2)

/-- True when the generic decimal pair matched at this exact position, if any,
fails the latitude/longitude range test. -/
def pairOutOfRange (cs : List Char) : Bool :=
  match pat3At cs with
  | some g => !(inRangeB (parseDec g.1) (parseDec g.2))
  | none => true

/-- The source's URL preprocessing (src/app.py lines 59-62): strip the input,
then expand it once through `expand_short_url_once` when it looks like a
shortener link.  `expand` is the outcome of the redirect-following GET (the
source falls back to the unexpanded URL on failure, so the outcome is always
a string). -/
def prepUrl (expand : String → String) (url : String) : String :=
  let u := strip url
  if containsB u "maps.app.goo.gl" || containsB u "goo.gl" then expand u else u

/-- Embedding of `extract_coordinates` (src/app.py lines 54-77).  The elapsed
time returned by the source is measurement-only and is omitted; the result is
`some (lat, lng)` as scaled integers, or `none` when the source returns
`(None, None)`. -/
def extract_coordinates (expand : String → String) (url : String) :
    Option ((Int × Nat) × (Int × Nat)) :=
  if url = "" then none
  else
    let u := prepUrl expand url
    match searchPat1 u.data with
    | some g => some (parseDec g.1, parseDec g.2)
    | none =>
      match searchPat2 u.data with
      | some g => some (parseDec g.1, parseDec g.2)
      | none =>
        match searchPat3 u.data with
        | some g =>
          if inRangeB (parseDec g.1) (parseDec g.2) then
            some (parseDec g.1, parseDec g.2)
          else none
        | none => none

/-! ## Places fetcher (`fetch_restaurants_places`, src/app.py lines 79-102) -/

/-- A raw nearby-search result entry: the dictionary keys the source reads,
each possibly missing, plus `payload_url` standing for any URL-like field the
raw payload may carry (the source never reads it when building `map_url`). -/
structure RawPlace where
  name : Option String
  vicinity : Option String
  rating : Option ℚ
  types : Option (List String)
  place_id : Option String
  payload_url : Option String
deriving DecidableEq

/-- A cell of the produced table.  The source puts either a number or a
string in the `rating` column; `null` is the representation of an
absent/None cell, which the source never produces. -/
inductive Cell where
  | str : String → Cell
  | num : ℚ → Cell
  | null : Cell
deriving DecidableEq

/-- One normalized row of the fetch result (the dict built at
src/app.py lines 94-101).  Every field except `rating` is always a string. -/
structure Row where
  name : String
  address : String
  rating : Cell
  types : String
  place_id : String
  map_url : String
deriving DecidableEq

/-- The canonical map URL the source always builds from `place_id`
(src/app.py line 100). -/
def canonicalMapUrl (pid : String) : String :=
  "https://www.google.com/maps/place/?q=place_id:" ++ pid

/-- Python `", ".join(...)`. -/
def joinComma : List String → String
  | [] => ""
  | [s] => s
  | s :: ss => s ++ ", " ++ joinComma ss

/-- Normalization of one raw result into a table row
(src/app.py lines 93-101). -/
def normalizeRow (r : RawPlace) : Row :=
  { name := r.name.getD ""
    address := r.vicinity.getD ""
    rating := match r.rating with
      | some q => Cell.num q
      | none => Cell.str ""
    types := joinComma (r.types.getD [])
    place_id := r.place_id.getD ""
    map_url := canonicalMapUrl (r.place_id.getD "") }

/-- One response of the nearby-search provider: a page of raw results plus
an optional continuation token. -/
structure PlacesResp where
  results : List RawPlace
  next_page_token : Option String
deriving DecidableEq

/-- Observable external events of one fetch: the initial nearby-search call,
the mandatory `time.sleep(2)` cool-down, and each continuation call with the
token it passes. -/
inductive FetchEv where
  | initCall : FetchEv
  | delay : FetchEv
  | contCall : String → FetchEv
deriving DecidableEq

/-- The pagination loop (src/app.py lines 85-91).  `nextPage` gives the
provider's response to a continuation call with a given token, `fuel` is the
remaining page budget (`max_pages - pages`), `cur` the current response and
`acc` the accumulated raw results.  Returns the final accumulation and the
ordered delay/continuation-call events. -/
def fetchAux (nextPage : String → PlacesResp) :
    Nat → PlacesResp → List RawPlace → List RawPlace × List FetchEv
  | 0, _, acc => (acc, [])
  | Nat.succ k, cur, acc =>
    match cur.next_page_token with
    | none => (acc, [])
    | some tok =>
      let nxt := nextPage tok
      let r := fetchAux nextPage k nxt (acc ++ nxt.results)
      (r.1, FetchEv.delay :: FetchEv.contCall tok :: r.2)

/-- Embedding of `fetch_restaurants_places` (src/app.py lines 79-102).
`firstResp` is the provider's response to the initial nearby-search call
(which the source always performs exactly once) and `nextPage` its response
to each continuation call.  Returns the normalized rows of the returned
DataFrame together with the ordered list of external events. -/
def fetch_restaurants_places (firstResp : PlacesResp) (nextPage : String → PlacesResp)
    (max_pages : Nat) : List Row × List FetchEv :=
  let r := fetchAux nextPage max_pages firstResp firstResp.results
  (r.1.map normalizeRow, FetchEv.initCall :: r.2)

/-! ## Classification handlers and session state (src/app.py lines 168-244) -/

/-- One appended entry of `st.session_state["classified"]`
(src/app.py lines 220-226). -/
structure LogRow where
  name : String
  address : String
  category : String
  map_url : String
  time_s : Option ℚ
deriving DecidableEq

/-- The session state the handlers read and write: the fetched candidate
list (None before a successful fetch), the append-only classification log,
and the progress cursor `index`. -/
structure Session where
  restaurants : Option (List Row)
  classified : List LogRow
  index : Nat
deriving DecidableEq

/-- Classification of the candidate at cursor position `i`, and the log row
the handlers append for it (src/app.py lines 219-226).  `world i` is the
outcome of the model call made for the i-th candidate. -/
def classifyRowAt (key : String) (world : Nat → Except String (Option String × ℚ))
    (row : Row) (i : Nat) : LogRow :=
  let ct := (classify_with_chatgpt key (world i) row.name row.address row.types 45).1
  { name := row.name, address := row.address, category := ct.1,
    map_url := row.map_url, time_s := ct.2 }

/-- The "Classify Next" handler (src/app.py lines 210-228): with no loaded
candidate list, or with the cursor past the end, the state is unchanged;
otherwise the row at the cursor is classified, one log entry is appended and
the cursor advances by one. -/
def classifyNextStep (key : String) (world : Nat → Except String (Option String × ℚ))
    (s : Session) : Session :=
  match s.restaurants with
  | none => s
  | some rs =>
    if h : s.index < rs.length then
      { s with
        classified := s.classified ++ [classifyRowAt key world (rs.get ⟨s.index, h⟩) s.index]
        index := s.index + 1 }
    else s

/-- The loop body of the "Classify All" handler, iterated over the remaining
candidates (src/app.py lines 237-243). -/
def classifyAllLoop (key : String) (world : Nat → Except String (Option String × ℚ)) :
    List Row → Session → Session
  | [], s => s
  | row :: rest, s =>
    classifyAllLoop key world rest
      { s with
        classified := s.classified ++ [classifyRowAt key world row s.index]
        index := s.index + 1 }

/-- The "Classify All" handler (src/app.py lines 233-244): with no loaded
candidate list the state is unchanged; otherwise the loop runs over
`range(index, len(restaurants))`, i.e. over the candidates from the cursor on. -/
def classifyAllStep (key : String) (world : Nat → Except String (Option String × ℚ))
    (s : Session) : Session :=
  match s.restaurants with
  | none => s
  | some rs => classifyAllLoop key world (rs.drop s.index) s

/-- The session state right after a successful fetch stored `rs`
(src/app.py lines 199-201): empty log, cursor zero. -/
def freshSession (rs : List Row) : Session :=
  { restaurants := some rs, classified := [], index := 0 }

/-! ## Helper lemmas -/

/-- A successful `search` comes from the anchored matcher at some start
position within the input. -/
theorem search_some_drop {α : Type} (p : List Char → Option α) (cs : List Char) (x : α)
    (h : search p cs = some x) : ∃ n, n ≤ cs.length ∧ p (cs.drop n) = some x := by
  induction cs with
  | nil => exact ⟨0, Nat.le_refl 0, h⟩
  | cons c t ih =>
    rw [search] at h
    cases hp : p (c :: t) with
    | some y =>
      rw [hp] at h
      exact ⟨0, Nat.zero_le _, by simpa [hp] using h⟩
    | none =>
      rw [hp] at h
      obtain ⟨n, hn, hpn⟩ := ih h
      exact ⟨n + 1, Nat.succ_le_succ hn, by simpa using hpn⟩

/-- Flat-mapping after reindexing a mapped successor range. -/
theorem flatMap_map_succ {γ : Type} (f : Nat → List γ) (l : List Nat) :
    (l.map Nat.succ).flatMap f = l.flatMap (fun m => f (m + 1)) := by
  induction l with
  | nil => rfl
  | cons a t ih => simp [List.map_cons, List.flatMap_cons, ih]

/-- Unrolling of the pagination loop along a chain of token-bearing pages:
when page `j` is the current response, every page `i` with
`j ≤ i < j + k` carries token `t i`, and the provider answers token `t i`
with page `i + 1`, then a budget of `k` fetches pages `j+1 … j+k` in order,
with one delay before each continuation call. -/
theorem fetchAux_chain (nextPage : String → PlacesResp) (P : Nat → PlacesResp)
    (t : Nat → String) :
    ∀ (k j : Nat) (acc : List RawPlace),
      (∀ i, j ≤ i → i < j + k → (P i).next_page_token = some (t i)) →
      (∀ i, j ≤ i → i < j + k → nextPage (t i) = P (i + 1)) →
      fetchAux nextPage k (P j) acc =
        (acc ++ (List.range k).flatMap (fun m => (P (j + m + 1)).results),
         (List.range k).flatMap (fun m => [FetchEv.delay, FetchEv.contCall (t (j + m))])) := by
  intro k
  induction k with
  | zero => intro j acc ht hn; simp [fetchAux]
  | succ n ih =>
    intro j acc ht hn
    have htj : (P j).next_page_token = some (t j) := ht j (Nat.le_refl j) (by omega)
    have hnj : nextPage (t j) = P (j + 1) := hn j (Nat.le_refl j) (by omega)
    rw [fetchAux, htj]
    simp only [hnj]
    rw [ih (j + 1) (acc ++ (P (j + 1)).results)
      (fun i h1 h2 => ht i (by omega) (by omega))
      (fun i h1 h2 => hn i (by omega) (by omega))]
    rw [List.range_succ_eq_map, List.flatMap_cons, List.flatMap_cons,
      flatMap_map_succ, flatMap_map_succ]
    have e1 : (List.range n).flatMap (fun m => (P (j + 1 + m + 1)).results) =
        (List.range n).flatMap (fun m => (P (j + (m + 1) + 1)).results) := by
      apply List.flatMap_congr
      intro m hm
      have hidx : j + 1 + m + 1 = j + (m + 1) + 1 := by omega
      rw [hidx]
    have e2 : (List.range n).flatMap
          (fun m => [FetchEv.delay, FetchEv.contCall (t (j + 1 + m))]) =
        (List.range n).flatMap
          (fun m => [FetchEv.delay, FetchEv.contCall (t (j + (m + 1)))]) := by
      apply List.flatMap_congr
      intro m hm
      have hidx : j + 1 + m = j + (m + 1) := by omega
      rw [hidx]
    dsimp only
    rw [Prod.mk.injEq]
    refine ⟨?_, ?_⟩
    · rw [e1]
      simp [List.append_assoc]
    · rw [e2]
      simp

/-- A "Classify Next" click with the cursor strictly inside the candidate
list keeps the list, advances the cursor by one and appends one log entry. -/
theorem classifyNextStep_advance (key : String)
    (world : Nat → Except String (Option String × ℚ)) (s : Session) (rs : List Row)
    (h1 : s.restaurants = some rs) (hlt : s.index < rs.length) :
    (classifyNextStep key world s).restaurants = some rs ∧
      (classifyNextStep key world s).index = s.index + 1 ∧
      (classifyNextStep key world s).classified.length = s.classified.length + 1 := by
  simp [classifyNextStep, h1, hlt]

/-- Iterating "Classify Next" `n` times within the candidate list advances
the cursor and the log length by `n` in lock step. -/
theorem classifyNext_iterate (key : String)
    (world : Nat → Except String (Option String × ℚ)) :
    ∀ (n : Nat) (s : Session) (rs : List Row),
      s.restaurants = some rs →
      s.classified.length = s.index →
      s.index + n ≤ rs.length →
      ((classifyNextStep key world)^[n] s).index = s.index + n ∧
        ((classifyNextStep key world)^[n] s).classified.length = s.index + n := by
  intro n
  induction n with
  | zero =>
    intro s rs h1 h2 h3
    simpa using h2
  | succ m ih =>
    intro s rs h1 h2 h3
    rw [Function.iterate_succ_apply]
    have hlt : s.index < rs.length := by omega
    obtain ⟨ha, hb, hc⟩ := classifyNextStep_advance key world s rs h1 hlt
    have := ih (classifyNextStep key world s) rs ha (by omega) (by omega)
    constructor
    · rw [this.1, hb]
      omega
    · rw [this.2, hb]
      omega

/-- The "Classify All" loop body advances the cursor and the log length by
the number of processed candidates, leaving the candidate list untouched. -/
theorem classifyAllLoop_adds (key : String)
    (world : Nat → Except String (Option String × ℚ)) :
    ∀ (l : List Row) (s : Session),
      (classifyAllLoop key world l s).index = s.index + l.length ∧
        (classifyAllLoop key world l s).classified.length =
          s.classified.length + l.length := by
  intro l
  induction l with
  | nil =>
    intro s
    simp [classifyAllLoop]
  | cons r rest ih =>
    intro s
    rw [classifyAllLoop]
    have := ih
      { s with
        classified := s.classified ++ [classifyRowAt key world r s.index]
        index := s.index + 1 }
    refine ⟨?_, ?_⟩
    · rw [this.1]
      simp
      omega
    · rw [this.2]
      simp
      omega

/-- On the success path with a configured key, the classifier returns some
taxonomy member (possibly the catch-all) with the measured, rounded latency
and one upstream call. -/
theorem classify_ok_shape (key : String) (oc : Option String) (elapsed : ℚ)
    (name address types : String) (tmo : ℚ) (hk : ¬ key = "") :
    ∃ lab, lab ∈ CATEGORIES_AR ∧
      classify_with_chatgpt key (Except.ok (oc, elapsed)) name address types tmo =
        ((lab, some (round2 elapsed)), 1) := by
  simp only [classify_with_chatgpt, if_neg hk]
  split_ifs with h1 h2 h3 h4 h5 h6 h7
  · exact ⟨_, h1, rfl⟩
  · exact ⟨_, by decide, rfl⟩
  · exact ⟨_, by decide, rfl⟩
  · exact ⟨_, by decide, rfl⟩
  · exact ⟨_, by decide, rfl⟩
  · exact ⟨_, by decide, rfl⟩
  · exact ⟨_, by decide, rfl⟩
  · exact ⟨_, by decide, rfl⟩

/-- C1: for every input, `classify_with_chatgpt` returns a pair of a label —
a taxonomy member (the catch-all "أخرى" is a member), the missing-credential
sentinel, or an error sentinel carrying the failure detail — and a latency
that is `None` exactly when no successful timed model call completed
(missing credential, or an exception during the call).  "Never raises" holds
by construction: the embedding is a total function. -/
theorem classify_never_raises (key : String) (call : Except String (Option String × ℚ))
    (name address types : String) (tmo : ℚ) :
    ((classify_with_chatgpt key call name address types tmo).1.1 ∈ CATEGORIES_AR ∨
      (classify_with_chatgpt key call name address types tmo).1.1 =
        "❌ OpenAI API key missing" ∨
      ∃ e, (classify_with_chatgpt key call name address types tmo).1.1 =
        "❌ Error: " ++ e) ∧
    ((classify_with_chatgpt key call name address types tmo).1.2 = none ↔
      key = "" ∨ ∃ e, call = Except.error e) := by
  by_cases hk : key = ""
  · refine ⟨Or.inr (Or.inl ?_), ?_⟩
    · simp [classify_with_chatgpt, hk]
    · simp [classify_with_chatgpt, hk]
  · cases call with
    | error e =>
      refine ⟨Or.inr (Or.inr ⟨e, ?_⟩), ?_⟩
      · simp [classify_with_chatgpt, hk]
      · simp [classify_with_chatgpt, hk]
    | ok pr =>
      obtain ⟨oc, elapsed⟩ := pr
      obtain ⟨lab, hmem, heq⟩ := classify_ok_shape key oc elapsed name address types tmo hk
      rw [heq]
      refine ⟨Or.inl hmem, ?_⟩
      simp [hk]

/-- C9: invoked with no model credential configured, the classifier returns
the missing-key error sentinel — which is not a taxonomy member — with
latency `None` and zero upstream model calls. -/
theorem classify_missing_key_no_calls (call : Except String (Option String × ℚ))
    (name address types : String) (tmo : ℚ) :
    classify_with_chatgpt "" call name address types tmo =
        (("❌ OpenAI API key missing", none), 0) ∧
      "❌ OpenAI API key missing" ∉ CATEGORIES_AR := by
  refine ⟨?_, by decide⟩
  simp [classify_with_chatgpt]

/-- C4 counterexample: the reply "indian seafood" contains "seafood", is not
an exact taxonomy match, yet is classified as the Indian label and not as
the Seafood label, because the synonym chain tests "indian" first
(src/app.py line 151). -/
theorem seafood_claim_counterexample :
    containsB (lowerStr (strip "indian seafood")) "seafood" = true ∧
      strip "indian seafood" ∉ CATEGORIES_AR ∧
      (classify_with_chatgpt "k" (Except.ok (some "indian seafood", 1))
          "n" "a" "t" 30).1.1 = "مطاعم هندية" ∧
      (classify_with_chatgpt "k" (Except.ok (some "indian seafood", 1))
          "n" "a" "t" 30).1.1 ≠ "مطاعم أسماك" := by
  refine ⟨by decide, by decide, by decide, by decide⟩

/-- C4 (amended): a successful reply that contains "seafood" in any letter
case, is not an exact taxonomy match, and contains none of the synonym
entries tested before the fish/seafood group, is classified as the Seafood
label. -/
theorem seafood_reply_amended (key reply : String) (elapsed : ℚ)
    (name address types : String) (tmo : ℚ)
    (hk : ¬ key = "")
    (hmem : strip reply ∉ CATEGORIES_AR)
    (hsea : containsB (lowerStr (strip reply)) "seafood" = true)
    (hearly : SYNONYMS_BEFORE_SEAFOOD.all
        (fun p => !(containsB (lowerStr (strip reply)) p)) = true) :
    classify_with_chatgpt key (Except.ok (some reply, elapsed)) name address types tmo =
      (("مطاعم أسماك", some (round2 elapsed)), 1) := by
  have hs : ∀ p ∈ SYNONYMS_BEFORE_SEAFOOD,
      containsB (lowerStr (strip reply)) p = false := by
    intro p hp
    have h := List.all_eq_true.mp hearly p hp
    simpa using h
  have h1 := hs "indian" (by decide)
  have h2 := hs "هندي" (by decide)
  have h3 := hs "shawarma" (by decide)
  have h4 := hs "شاورما" (by decide)
  have h5 := hs "lebanese" (by decide)
  have h6 := hs "لبناني" (by decide)
  have h7 := hs "gulf" (by decide)
  have h8 := hs "khaleeji" (by decide)
  have h9 := hs "خليج" (by decide)
  simp [classify_with_chatgpt, hk, hmem, h1, h2, h3, h4, h5, h6, h7, h8, h9, hsea]

/-- C4 amended witness: a concrete seafood reply classified as Seafood. -/
theorem seafood_reply_amended_witness :
    classify_with_chatgpt "k" (Except.ok (some "SEAFOOD grill", 1)) "n" "a" "t" 30 =
      (("مطاعم أسماك", some (round2 1)), 1) :=
  seafood_reply_amended "k" "SEAFOOD grill" 1 "n" "a" "t" 30
    (by decide) (by decide) (by decide) (by decide)

/-- C5: a successful reply that matches no taxonomy member exactly and no
synonym-table entry as a substring is classified as the catch-all "أخرى"
("Other") with the measured latency — never an error value and never an
empty label. -/
theorem unrecognized_reply_other (key reply : String) (elapsed : ℚ)
    (name address types : String) (tmo : ℚ)
    (hk : ¬ key = "")
    (hmem : strip reply ∉ CATEGORIES_AR)
    (hsyn : SYNONYMS.all (fun p => !(containsB (lowerStr (strip reply)) p)) = true) :
    classify_with_chatgpt key (Except.ok (some reply, elapsed)) name address types tmo =
        (("أخرى", some (round2 elapsed)), 1) ∧
      "أخرى" ∈ CATEGORIES_AR ∧ ¬ "أخرى" = "" := by
  have hs : ∀ p ∈ SYNONYMS, containsB (lowerStr (strip reply)) p = false := by
    intro p hp
    have h := List.all_eq_true.mp hsyn p hp
    simpa using h
  have h1 := hs "indian" (by decide)
  have h2 := hs "هندي" (by decide)
  have h3 := hs "shawarma" (by decide)
  have h4 := hs "شاورما" (by decide)
  have h5 := hs "lebanese" (by decide)
  have h6 := hs "لبناني" (by decide)
  have h7 := hs "gulf" (by decide)
  have h8 := hs "khaleeji" (by decide)
  have h9 := hs "خليج" (by decide)
  have h10 := hs "fish" (by decide)
  have h11 := hs "seafood" (by decide)
  have h12 := hs "سمك" (by decide)
  have h13 := hs "burger" (by decide)
  have h14 := hs "برجر" (by decide)
  refine ⟨?_, by decide, by decide⟩
  simp [classify_with_chatgpt, hk, hmem, h1, h2, h3, h4, h5, h6, h7,
    h8, h9, h10, h11, h12, h13, h14]

/-- C5 witness: a concrete unrecognized reply classified as "أخرى". -/
theorem unrecognized_reply_other_witness :
    classify_with_chatgpt "k" (Except.ok (some "No idea", 1)) "n" "a" "t" 30 =
        (("أخرى", some (round2 1)), 1) ∧
      "أخرى" ∈ CATEGORIES_AR ∧ ¬ "أخرى" = "" :=
  unrecognized_reply_other "k" "No idea" 1 "n" "a" "t" 30
    (by decide) (by decide) (by decide)

/-- C2: `len(classified) = index` is preserved by every "Classify Next"
step; and from a fresh session over `K` candidates, `K` "Classify Next"
steps — as well as a single "Classify All" — end with the cursor and the log
length both equal to `K`.  This holds for every outcome of the model calls,
in particular with no injected failures. -/
theorem classification_cursor_invariant :
    (∀ (key : String) (world : Nat → Except String (Option String × ℚ)) (s : Session),
        s.classified.length = s.index →
        (classifyNextStep key world s).classified.length =
          (classifyNextStep key world s).index) ∧
    (∀ (key : String) (world : Nat → Except String (Option String × ℚ)) (rs : List Row),
        ((classifyNextStep key world)^[rs.length] (freshSession rs)).index = rs.length ∧
          ((classifyNextStep key world)^[rs.length]
            (freshSession rs)).classified.length = rs.length) ∧
    (∀ (key : String) (world : Nat → Except String (Option String × ℚ)) (rs : List Row),
        (classifyAllStep key world (freshSession rs)).index = rs.length ∧
          (classifyAllStep key world (freshSession rs)).classified.length = rs.length) := by
  refine ⟨?_, ?_, ?_⟩
  · intro key world s hinv
    cases hr : s.restaurants with
    | none => simp [classifyNextStep, hr, hinv]
    | some rs =>
      by_cases hlt : s.index < rs.length
      · obtain ⟨ha, hb, hc⟩ := classifyNextStep_advance key world s rs hr hlt
        rw [hb, hc, hinv]
      · simp [classifyNextStep, hr, hlt, hinv]
  · intro key world rs
    have h := classifyNext_iterate key world rs.length (freshSession rs) rs rfl rfl
      (by simp [freshSession])
    simpa [freshSession] using h
  · intro key world rs
    have h := classifyAllLoop_adds key world rs (freshSession rs)
    have hstep : classifyAllStep key world (freshSession rs) =
        classifyAllLoop key world rs (freshSession rs) := by
      simp [classifyAllStep, freshSession]
    rw [hstep]
    refine ⟨?_, ?_⟩
    · rw [h.1]
      simp [freshSession]
    · rw [h.2]
      simp [freshSession]

/-- A sample candidate row for the concrete session runs. -/
def sampleRow : Row :=
  { name := "Foo", address := "Addr", rating := Cell.str "", types := "restaurant",
    place_id := "pid", map_url := canonicalMapUrl "pid" }

/-- A sample model-call world: every call succeeds with the reply "Burger". -/
def sampleWorld : Nat → Except String (Option String × ℚ) :=
  fun _ => Except.ok (some "Burger", 1)

/-- C2 witness: the invariant and the two end-state facts at a concrete
two-candidate session. -/
theorem classification_cursor_invariant_witness :
    ((classifyNextStep "k" sampleWorld (freshSession [sampleRow])).classified.length =
      (classifyNextStep "k" sampleWorld (freshSession [sampleRow])).index) ∧
    (((classifyNextStep "k" sampleWorld)^[2]
        (freshSession [sampleRow, sampleRow])).index = 2 ∧
      ((classifyNextStep "k" sampleWorld)^[2]
        (freshSession [sampleRow, sampleRow])).classified.length = 2) ∧
    ((classifyAllStep "k" sampleWorld (freshSession [sampleRow, sampleRow])).index = 2 ∧
      (classifyAllStep "k" sampleWorld
        (freshSession [sampleRow, sampleRow])).classified.length = 2) :=
  ⟨classification_cursor_invariant.1 "k" sampleWorld (freshSession [sampleRow]) rfl,
    classification_cursor_invariant.2.1 "k" sampleWorld [sampleRow, sampleRow],
    classification_cursor_invariant.2.2 "k" sampleWorld [sampleRow, sampleRow]⟩

/-- C3: a fetch with `max_pages = 0` performs exactly the one initial
nearby-search call — no delay, no continuation call — whatever the first
response's token; and over a chain of `M + 1` token-bearing pages with
`max_pages = M`, exactly `M` continuation calls occur, one mandatory delay
immediately before each, and the returned rows are the normalization of the
concatenation of all fetched pages in order. -/
theorem fetch_pagination_behavior :
    (∀ (firstResp : PlacesResp) (nextPage : String → PlacesResp),
        fetch_restaurants_places firstResp nextPage 0 =
          (firstResp.results.map normalizeRow, [FetchEv.initCall])) ∧
    (∀ (P : Nat → PlacesResp) (t : Nat → String)
        (nextPage : String → PlacesResp) (M : Nat),
        (∀ i, i < M + 1 → (P i).next_page_token = some (t i)) →
        (∀ i, i < M → nextPage (t i) = P (i + 1)) →
        fetch_restaurants_places (P 0) nextPage M =
          (((List.range (M + 1)).flatMap (fun i => (P i).results)).map normalizeRow,
            FetchEv.initCall ::
              (List.range M).flatMap
                (fun i => [FetchEv.delay, FetchEv.contCall (t i)]))) := by
  constructor
  · intro firstResp nextPage
    simp [fetch_restaurants_places, fetchAux]
  · intro P t nextPage M ht hn
    have h := fetchAux_chain nextPage P t M 0 ((P 0).results)
      (fun i h1 h2 => ht i (by omega)) (fun i h1 h2 => hn i (by omega))
    simp only [fetch_restaurants_places]
    rw [h]
    simp only [List.range_succ_eq_map, List.flatMap_cons, flatMap_map_succ, Nat.zero_add]

/-- A sample raw place for the first page. -/
def sampleRawA : RawPlace :=
  { name := some "A", vicinity := some "Street 1", rating := some 4,
    types := some ["restaurant"], place_id := some "pidA", payload_url := none }

/-- A sample raw place for the second page. -/
def sampleRawB : RawPlace :=
  { name := some "B", vicinity := none, rating := none,
    types := none, place_id := some "pidB", payload_url := none }

/-- First sample provider page, carrying a continuation token. -/
def samplePageA : PlacesResp :=
  { results := [sampleRawA], next_page_token := some "tok0" }

/-- Second sample provider page, also carrying a continuation token. -/
def samplePageB : PlacesResp :=
  { results := [sampleRawB], next_page_token := some "tok1" }

/-- The sample two-page chain. -/
def sampleChain : Nat → PlacesResp :=
  fun i => if i = 0 then samplePageA else samplePageB

/-- The tokens of the sample chain. -/
def sampleTok : Nat → String :=
  fun i => if i = 0 then "tok0" else "tok1"

/-- The sample provider's continuation behaviour. -/
def sampleNext : String → PlacesResp :=
  fun _ => samplePageB

/-- C3 witness: both parts at a concrete two-page provider. -/
theorem fetch_pagination_behavior_witness :
    fetch_restaurants_places samplePageA sampleNext 0 =
        (samplePageA.results.map normalizeRow, [FetchEv.initCall]) ∧
      fetch_restaurants_places (sampleChain 0) sampleNext 1 =
        (((List.range 2).flatMap (fun i => (sampleChain i).results)).map normalizeRow,
          FetchEv.initCall ::
            (List.range 1).flatMap
              (fun i => [FetchEv.delay, FetchEv.contCall (sampleTok i)])) :=
  ⟨fetch_pagination_behavior.1 samplePageA sampleNext,
    fetch_pagination_behavior.2 sampleChain sampleTok sampleNext 1
      (by decide) (by decide)⟩

/-- C7: when the preprocessed URL (stripped, expanded once when it is a
shortener link) contains an `@lat,lng` marker, `extract_coordinates` returns
exactly the matched latitude/longitude groups — the leftmost marker, which
`re.search` selects — parsed with no rounding beyond the input precision. -/
theorem extract_at_marker_verbatim (expand : String → String) (url : String)
    (g : List Char × List Char)
    (h : searchPat1 (prepUrl expand url).data = some g) :
    extract_coordinates expand url = some (parseDec g.1, parseDec g.2) := by
  have hu : ¬ url = "" := by
    intro he
    rw [he] at h
    have hp : prepUrl expand "" = "" := rfl
    rw [hp] at h
    have hn : searchPat1 ("" : String).data = none := rfl
    rw [hn] at h
    exact Option.noConfusion h
  simp [extract_coordinates, hu, h]

/-- C7 witness: a concrete `@lat,lng` URL resolved verbatim. -/
theorem extract_at_marker_verbatim_witness :
    extract_coordinates id "https://www.google.com/maps/place/x/@25.3,55.4,15z" =
      some (parseDec "25.3".data, parseDec "55.4".data) :=
  extract_at_marker_verbatim id "https://www.google.com/maps/place/x/@25.3,55.4,15z"
    ("25.3".data, "55.4".data) (by decide)

/-- C6: when no `@lat,lng` and no `!3d!4d` pattern matches and the generic
decimal pair matched at every start position (if any) fails the
latitude/longitude range test, resolution returns NotFound. -/
theorem extract_out_of_range_not_found (expand : String → String) (url : String)
    (h1 : searchPat1 (prepUrl expand url).data = none)
    (h2 : searchPat2 (prepUrl expand url).data = none)
    (h3 : ∀ i, i ≤ (prepUrl expand url).data.length →
      pairOutOfRange ((prepUrl expand url).data.drop i) = true) :
    extract_coordinates expand url = none := by
  by_cases hu : url = ""
  · simp [extract_coordinates, hu]
  · cases hp : searchPat3 (prepUrl expand url).data with
    | none => simp [extract_coordinates, hu, h1, h2, hp]
    | some g =>
      obtain ⟨n, hn, hpn⟩ :=
        search_some_drop pat3At ((prepUrl expand url).data) g
          (by simpa [searchPat3] using hp)
      have ho := h3 n hn
      simp only [pairOutOfRange, hpn] at ho
      have hr : inRangeB (parseDec g.1) (parseDec g.2) = false := by
        simpa using ho
      simp [extract_coordinates, hu, h1, h2, hp, hr]

/-- C6 witness: `"95.5,200.7"` has only out-of-range decimal pairs and
resolves to NotFound. -/
theorem extract_out_of_range_not_found_witness :
    extract_coordinates id "95.5,200.7" = none :=
  extract_out_of_range_not_found id "95.5,200.7" (by decide) (by decide) (by decide)

/-- C10: the generic decimal-pair fallback inspects only the first
(leftmost) match of the pair pattern: when the earlier patterns fail and
that first match is out of range, resolution returns NotFound — regardless
of any later in-range pair in the same URL. -/
theorem extract_first_pair_only (expand : String → String) (url : String)
    (g : List Char × List Char)
    (h1 : searchPat1 (prepUrl expand url).data = none)
    (h2 : searchPat2 (prepUrl expand url).data = none)
    (h3 : searchPat3 (prepUrl expand url).data = some g)
    (h4 : inRangeB (parseDec g.1) (parseDec g.2) = false) :
    extract_coordinates expand url = none := by
  by_cases hu : url = ""
  · simp [extract_coordinates, hu]
  · simp [extract_coordinates, hu, h1, h2, h3, h4]

/-- C10 witness: in `"999.9,10.5,20.5"` the first pair match `(999.9, 10.5)`
is out of range, so resolution returns NotFound even though the later
substring starting at position 6 holds the in-range pair `(10.5, 20.5)`. -/
theorem extract_first_pair_only_witness :
    extract_coordinates id "999.9,10.5,20.5" = none ∧
      pat3At ("999.9,10.5,20.5".data.drop 6) = some ("10.5".data, "20.5".data) ∧
      inRangeB (parseDec "10.5".data) (parseDec "20.5".data) = true :=
  ⟨extract_first_pair_only id "999.9,10.5,20.5" ("999.9".data, "10.5".data)
      (by decide) (by decide) (by decide) (by decide),
    by decide, by decide⟩

/-- C8 counterexample: a raw result with no rating is normalized with the
rating cell set to the empty string — present, like every other defaulted
field — not absent as the claim states (src/app.py line 97 reads
`r.get("rating","")`). -/
theorem rating_default_counterexample :
    (⟨none, none, none, none, none, none⟩ : RawPlace).rating = none ∧
      (normalizeRow ⟨none, none, none, none, none, none⟩).rating = Cell.str "" ∧
      (normalizeRow ⟨none, none, none, none, none, none⟩).rating ≠ Cell.null := by
  refine ⟨rfl, rfl, by decide⟩

/-- C8 (amended): every raw result is normalized into a row whose missing
fields default to the empty string — including the rating cell, which
defaults to the empty string rather than being absent — while a present
rating is kept as a number, and `map_url` is always the canonical URL built
from `place_id`, independent of any URL field of the raw payload. -/
theorem normalize_candidate_amended (r : RawPlace) :
    ((r.name = none → (normalizeRow r).name = "") ∧
      (r.vicinity = none → (normalizeRow r).address = "") ∧
      (r.place_id = none → (normalizeRow r).place_id = "") ∧
      (r.types = none → (normalizeRow r).types = "") ∧
      (r.rating = none → (normalizeRow r).rating = Cell.str "") ∧
      (∀ q, r.rating = some q → (normalizeRow r).rating = Cell.num q) ∧
      (normalizeRow r).rating ≠ Cell.null) ∧
    (normalizeRow r).map_url = canonicalMapUrl (r.place_id.getD "") ∧
    (∀ v, normalizeRow { r with payload_url := v } = normalizeRow r) := by
  refine ⟨⟨?_, ?_, ?_, ?_, ?_, ?_, ?_⟩, rfl, fun v => rfl⟩
  · intro h
    simp [normalizeRow, h]
  · intro h
    simp [normalizeRow, h]
  · intro h
    simp [normalizeRow, h]
  · intro h
    simp [normalizeRow, h, joinComma]
  · intro h
    simp [normalizeRow, h]
  · intro q h
    simp [normalizeRow, h]
  · cases hr : r.rating <;> simp [normalizeRow, hr]

/-- C8 amended witness: the defaults and the canonical URL at a concrete
all-missing raw result carrying a payload URL the normalization ignores. -/
theorem normalize_candidate_amended_witness :
    (normalizeRow ⟨none, none, none, none, none, some "raw-url"⟩).name = "" ∧
      (normalizeRow ⟨none, none, none, none, none, some "raw-url"⟩).rating =
        Cell.str "" ∧
      (normalizeRow ⟨none, none, none, none, none, some "raw-url"⟩).map_url =
        canonicalMapUrl "" ∧
      normalizeRow ⟨none, none, none, none, none, some "raw-url"⟩ =
        normalizeRow ⟨none, none, none, none, none, none⟩ :=
  ⟨(normalize_candidate_amended ⟨none, none, none, none, none, some "raw-url"⟩).1.1 rfl,
    (normalize_candidate_amended
      ⟨none, none, none, none, none, some "raw-url"⟩).1.2.2.2.2.1 rfl,
    (normalize_candidate_amended ⟨none, none, none, none, none, some "raw-url"⟩).2.1,
    (normalize_candidate_amended
      ⟨none, none, none, none, none, none⟩).2.2 (some "raw-url")⟩
